import Mathlib

/-!
Shallow embedding of the moderation logic of `src/tele2.py` (a Telegram
toxicity-moderation bot) and proofs about it.

Modelling conventions:
* Timestamps (`datetime.now()`, `blocked_until`) are integers in seconds;
  `timedelta(days=2)` is the constant `twoDays`.
* The classifier (`model.predict`, line 75) produces a floating-point score
  compared against 0.5; floats are not embedded, so the thresholded comparison
  `prediction > 0.5` is the black box `classify : String → Bool`, and
  `detect_toxicity` turns it into the 1/0 label of line 77.
* The transcriber (`speech_to_text`) is a black box; a voice handler run takes
  its result as the input `transcribed` (empty string = unintelligible).
* A database row for a user is the pair `(toxic_count, blocked_until)`
  returned by `cursor.fetchone()`; `none` is a missing row.
* A handler run is a pure function from its inputs to a `HandlerResult`
  recording the observable effects: whether the inbound message was deleted,
  the list of replies sent (in order), the record upserted by
  `update_user_record` (`none` when the handler returns before line 165/222),
  and whether the classifier / transcriber were reached on that path.
-/

namespace ToxicScan

/-- A row of the `toxic_users` table as read by the handlers:
`toxic_count` and the nullable `blocked_until` timestamp (`none` = NULL). -/
structure UserRecord where
  toxic_count : Int
  blocked_until : Option Int
deriving Repr, DecidableEq

/-- The value `get_user_record` hands to a handler: `none` when there is no
row (or the read failed), otherwise the `(toxic_count, blocked_until)` pair. -/
abbrev Row := Option (Int × Option Int)

/-- `timedelta(days=2)` in seconds (lines 160, 217). -/
def twoDays : Int := 2 * 24 * 60 * 60

/-- `detect_toxicity` (lines 72-77): a model score above 0.5
(`classify text = true`) is labelled toxic (1), otherwise non-toxic (0). -/
def detect_toxicity (classify : String → Bool) (text : String) : Nat :=
  if classify text then 1 else 0

/-- `TOXIC_KEYWORDS` (line 80). -/
def TOXIC_KEYWORDS : List String :=
  ["hate", "stupid", "idiot", "dumb", "kill", "trash", "ugly"]

/-- Python `str.split()` with no separator, on the character list: split on
runs of whitespace, dropping empty pieces. `acc` holds the characters of the
current word in reverse. -/
def splitWsAux : List Char → List Char → List String
  | [], acc => if acc.isEmpty then [] else [String.mk acc.reverse]
  | c :: cs, acc =>
    if c.isWhitespace then
      if acc.isEmpty then splitWsAux cs []
      else String.mk acc.reverse :: splitWsAux cs []
    else splitWsAux cs (c :: acc)

/-- Python `text.split()` (line 83). -/
def pySplit (text : String) : List String :=
  splitWsAux text.data []

/-- Python `w.lower()` (line 86), character-wise (the keyword set is ASCII). -/
def pyToLower (s : String) : String :=
  String.mk (s.data.map Char.toLower)

/-- `explain_toxicity` (lines 82-90): split on whitespace, bold the known
toxic keywords (case-insensitive), re-join with single spaces. -/
def explain_toxicity (text : String) : String :=
  let highlighted := (pySplit text).map fun w =>
    if TOXIC_KEYWORDS.contains (pyToLower w) then "**" ++ w ++ "**" else w
  String.intercalate " " highlighted

/-- The replies a handler can send, one constructor per distinct
`reply_text` call site of `handle_text` / `handle_voice`. -/
inductive Reply where
  | AlreadyBlocked (blockedUntil : Int)
  | ToxicRemoved (explanation : String)
  | ToxicRemovedVoice (explanation : String)
  | Warning (username : String)
  | Blocked (blockedUntil : Int)
  | Clean
  | CleanVoice (text : String)
  | Unintelligible
deriving Repr, DecidableEq

/-- The observable outcome of one handler run. `write` is the record passed to
`update_user_record`, or `none` when the handler returned before reaching it.
`classifierCalled` / `transcriberCalled` record whether the run reached
`detect_toxicity` / `speech_to_text`. -/
structure HandlerResult where
  deleted : Bool
  replies : List Reply
  write : Option UserRecord
  classifierCalled : Bool
  transcriberCalled : Bool
deriving Repr, DecidableEq

/-- Lines 130-135 (and 174-179): default `toxic_count = 0`,
`blocked_until = None`, then unpack the row when it exists. -/
def read_row (record : Row) : Int × Option Int :=
  match record with
  | some r => r
  | none => (0, none)

/-- Line 136 / 180: `if blocked_until and now < blocked_until` — the user is
still blocked exactly when the timestamp is set and strictly in the future. -/
def still_blocked (blocked_until : Option Int) (now : Int) : Bool :=
  match blocked_until with
  | some b => decide (now < b)
  | none => false

/-- Lines 144-165 of `handle_text`: the part after the block check.
Classify, and on a toxic verdict increment the count, delete, reply
`ToxicRemoved`, add `Warning` at exactly 8 or `Blocked` at `>= 10`;
on a clean verdict reply `Clean`. Either way `update_user_record`
runs at line 165, so `write` is always `some`. -/
def handle_text_classify (classify : String → Bool) (toxic_count : Int)
    (blocked_until : Option Int) (username text : String) (now : Int) :
    HandlerResult :=
  if detect_toxicity classify text = 1 then
    let new_count := toxic_count + 1
    let explanation := explain_toxicity text
    if new_count = 8 then
      { deleted := true
        replies := [Reply.ToxicRemoved explanation, Reply.Warning username]
        write := some { toxic_count := new_count, blocked_until := blocked_until }
        classifierCalled := true
        transcriberCalled := false }
    else if 10 ≤ new_count then
      { deleted := true
        replies := [Reply.ToxicRemoved explanation, Reply.Blocked (now + twoDays)]
        write := some { toxic_count := new_count, blocked_until := some (now + twoDays) }
        classifierCalled := true
        transcriberCalled := false }
    else
      { deleted := true
        replies := [Reply.ToxicRemoved explanation]
        write := some { toxic_count := new_count, blocked_until := blocked_until }
        classifierCalled := true
        transcriberCalled := false }
  else
    { deleted := false
      replies := [Reply.Clean]
      write := some { toxic_count := toxic_count, blocked_until := blocked_until }
      classifierCalled := true
      transcriberCalled := false }

/-- `handle_text` (lines 122-165): unpack the row, short-circuit with
`AlreadyBlocked` when the block is still in the future (delete, reply,
return — no classifier call, no write), otherwise classify. -/
def handle_text (classify : String → Bool) (record : Row) (username text : String)
    (now : Int) : HandlerResult :=
  let toxic_count := (read_row record).1
  match (read_row record).2 with
  | some b =>
    if now < b then
      { deleted := true
        replies := [Reply.AlreadyBlocked b]
        write := none
        classifierCalled := false
        transcriberCalled := false }
    else
      handle_text_classify classify toxic_count (some b) username text now
  | none =>
      handle_text_classify classify toxic_count none username text now

/-- Lines 188-222 of `handle_voice`: the part after the block check.
The transcriber runs, then the voice message is deleted unconditionally
(lines 194-197); an empty transcription replies `Unintelligible` and returns
before the write (lines 202-204); otherwise classify exactly as the text
path but with the voice-flavoured replies, and write at line 222. -/
def handle_voice_transcribed (classify : String → Bool) (toxic_count : Int)
    (blocked_until : Option Int) (username transcribed : String) (now : Int) :
    HandlerResult :=
  if transcribed = "" then
    { deleted := true
      replies := [Reply.Unintelligible]
      write := none
      classifierCalled := false
      transcriberCalled := true }
  else if detect_toxicity classify transcribed = 1 then
    let new_count := toxic_count + 1
    let explanation := explain_toxicity transcribed
    if new_count = 8 then
      { deleted := true
        replies := [Reply.ToxicRemovedVoice explanation, Reply.Warning username]
        write := some { toxic_count := new_count, blocked_until := blocked_until }
        classifierCalled := true
        transcriberCalled := true }
    else if 10 ≤ new_count then
      { deleted := true
        replies := [Reply.ToxicRemovedVoice explanation, Reply.Blocked (now + twoDays)]
        write := some { toxic_count := new_count, blocked_until := some (now + twoDays) }
        classifierCalled := true
        transcriberCalled := true }
    else
      { deleted := true
        replies := [Reply.ToxicRemovedVoice explanation]
        write := some { toxic_count := new_count, blocked_until := blocked_until }
        classifierCalled := true
        transcriberCalled := true }
  else
    { deleted := true
      replies := [Reply.CleanVoice transcribed]
      write := some { toxic_count := toxic_count, blocked_until := blocked_until }
      classifierCalled := true
      transcriberCalled := true }

/-- `handle_voice` (lines 167-222): identical block short-circuit, then the
post-transcription path with the transcriber's result `transcribed`. -/
def handle_voice (classify : String → Bool) (record : Row)
    (username transcribed : String) (now : Int) : HandlerResult :=
  let toxic_count := (read_row record).1
  match (read_row record).2 with
  | some b =>
    if now < b then
      { deleted := true
        replies := [Reply.AlreadyBlocked b]
        write := none
        classifierCalled := false
        transcriberCalled := false }
    else
      handle_voice_transcribed classify toxic_count (some b) username transcribed now
  | none =>
      handle_voice_transcribed classify toxic_count none username transcribed now

/-- The database content: a row per user id, or `none`. -/
abbrev Store := String → Option (Int × Option Int)

/-- `get_user_record` (lines 49-55): fetch the row for `user_id`; a missing
row and a raised DB error (`read_ok = false`) both yield `None`. -/
def get_user_record (store : Store) (read_ok : Bool) (user_id : String) :
    Row :=
  if read_ok then store user_id else none

/-- The store transition of `update_user_record` (lines 57-69): upsert keyed
on `user_id`, replacing `toxic_count` and `blocked_until`. -/
def update_user_record (store : Store) (user_id : String) (toxic_count : Int)
    (blocked_until : Option Int) : Store :=
  fun uid => if uid = user_id then some (toxic_count, blocked_until) else store uid

/-- One full `handle_text` run against the store: read through
`get_user_record`, decide, and apply the upsert when the run reaches it. -/
def handle_text_full (classify : String → Bool) (store : Store) (read_ok : Bool)
    (user_id username text : String) (now : Int) : HandlerResult × Store :=
  let result := handle_text classify (get_user_record store read_ok user_id)
    username text now
  match result.write with
  | some r => (result, update_user_record store user_id r.toxic_count r.blocked_until)
  | none => (result, store)


/-! ### Helper lemmas -/

/-- When the block test of line 136 / 180 fails, `handle_text` is the
classification path on the values read from the row. -/
theorem handle_text_eq_classify (classify : String → Bool) (record : Row)
    (username text : String) (now : Int)
    (hnb : still_blocked (read_row record).2 now = false) :
    handle_text classify record username text now =
      handle_text_classify classify (read_row record).1 (read_row record).2
        username text now := by
  rcases record with _ | ⟨tc, _ | b⟩ <;>
    simp_all [handle_text, read_row, still_blocked]

/-- Voice variant of `handle_text_eq_classify`. -/
theorem handle_voice_eq_transcribed (classify : String → Bool) (record : Row)
    (username transcribed : String) (now : Int)
    (hnb : still_blocked (read_row record).2 now = false) :
    handle_voice classify record username transcribed now =
      handle_voice_transcribed classify (read_row record).1 (read_row record).2
        username transcribed now := by
  rcases record with _ | ⟨tc, _ | b⟩ <;>
    simp_all [handle_voice, read_row, still_blocked]

/-- Every branch of the text classification path reaches the classifier. -/
theorem handle_text_classify_calls_classifier (classify : String → Bool)
    (toxic_count : Int) (blocked_until : Option Int) (username text : String)
    (now : Int) :
    (handle_text_classify classify toxic_count blocked_until username text
      now).classifierCalled = true := by
  simp only [handle_text_classify]
  split_ifs <;> rfl

/-- Every branch of the voice post-transcription path with a non-empty
transcription reaches the classifier. -/
theorem handle_voice_transcribed_calls_classifier (classify : String → Bool)
    (toxic_count : Int) (blocked_until : Option Int)
    (username transcribed : String) (now : Int) (htr : transcribed ≠ "") :
    (handle_voice_transcribed classify toxic_count blocked_until username
      transcribed now).classifierCalled = true := by
  simp only [handle_voice_transcribed]
  rw [if_neg htr]
  split_ifs <;> rfl

/-- On the text classification path with a toxic verdict, the `Warning` reply
is sent exactly when the incremented count is 8. -/
theorem warning_mem_text_classify (classify : String → Bool) (tc : Int)
    (bu : Option Int) (username text : String) (now : Int)
    (hct : classify text = true) :
    Reply.Warning username ∈
        (handle_text_classify classify tc bu username text now).replies ↔
      tc + 1 = 8 := by
  simp only [handle_text_classify, detect_toxicity, hct, if_true]
  split_ifs with h8 h10 <;> simp [h8]

/-- Voice variant of `warning_mem_text_classify`. -/
theorem warning_mem_voice_transcribed (classify : String → Bool) (tc : Int)
    (bu : Option Int) (username transcribed : String) (now : Int)
    (hcv : classify transcribed = true) (htr : transcribed ≠ "") :
    Reply.Warning username ∈
        (handle_voice_transcribed classify tc bu username transcribed
          now).replies ↔
      tc + 1 = 8 := by
  simp only [handle_voice_transcribed, detect_toxicity, hcv, if_true,
    if_neg htr]
  split_ifs with h8 h10 <;> simp [h8]

/-- Every branch of the text classification path reaches the write at
line 165. -/
theorem handle_text_classify_write_isSome (classify : String → Bool)
    (tc : Int) (bu : Option Int) (username text : String) (now : Int) :
    (handle_text_classify classify tc bu username text now).write.isSome
      = true := by
  simp only [handle_text_classify]
  split_ifs <;> rfl

/-- Every branch of the voice post-transcription path with a non-empty
transcription reaches the write at line 222. -/
theorem handle_voice_transcribed_write_isSome (classify : String → Bool)
    (tc : Int) (bu : Option Int) (username transcribed : String) (now : Int)
    (htr : transcribed ≠ "") :
    (handle_voice_transcribed classify tc bu username transcribed
      now).write.isSome = true := by
  simp only [handle_voice_transcribed]
  rw [if_neg htr]
  split_ifs <;> rfl

/-- A still-blocked user's text run performs no write. -/
theorem handle_text_blocked_write_none (classify : String → Bool)
    (record : Row) (username text : String) (now : Int)
    (hb : still_blocked (read_row record).2 now = true) :
    (handle_text classify record username text now).write = none := by
  rcases record with _ | ⟨tc, _ | b⟩ <;>
    simp_all [handle_text, read_row, still_blocked]

/-- A still-blocked user's voice run performs no write. -/
theorem handle_voice_blocked_write_none (classify : String → Bool)
    (record : Row) (username transcribed : String) (now : Int)
    (hb : still_blocked (read_row record).2 now = true) :
    (handle_voice classify record username transcribed now).write = none := by
  rcases record with _ | ⟨tc, _ | b⟩ <;>
    simp_all [handle_voice, read_row, still_blocked]

/-- On the text classification path the written count is the read count
plus one (toxic) or the read count itself (clean). -/
theorem handle_text_classify_count_step (classify : String → Bool) (tc : Int)
    (bu : Option Int) (username text : String) (now : Int) :
    ∀ r : UserRecord,
      (handle_text_classify classify tc bu username text now).write = some r →
        r.toxic_count = tc + 1 ∨ r.toxic_count = tc := by
  intro r h
  simp only [handle_text_classify] at h
  split_ifs at h <;> simp only [Option.some.injEq] at h <;> subst h <;> simp

/-- Voice variant of `handle_text_classify_count_step` (an unintelligible
transcription writes nothing, so only the two count outcomes remain). -/
theorem handle_voice_transcribed_count_step (classify : String → Bool)
    (tc : Int) (bu : Option Int) (username transcribed : String) (now : Int) :
    ∀ r : UserRecord,
      (handle_voice_transcribed classify tc bu username transcribed
          now).write = some r →
        r.toxic_count = tc + 1 ∨ r.toxic_count = tc := by
  intro r h
  simp only [handle_voice_transcribed] at h
  split_ifs at h <;> (injection h with h; subst h; simp)

/-! ### Claim theorems -/

/-- C1: for a record whose `blocked_until` is set and strictly in the future,
both handlers delete the inbound message, send only the `AlreadyBlocked`
reply with the stored timestamp, perform no store write (the record is left
unchanged), and never reach the classifier or the transcriber. -/
theorem blocked_user_rejected_without_inference
    (classify : String → Bool) (tc b : Int) (username text transcribed : String)
    (now : Int) (hfut : now < b) :
    handle_text classify (some (tc, some b)) username text now =
      { deleted := true, replies := [Reply.AlreadyBlocked b], write := none
        classifierCalled := false, transcriberCalled := false } ∧
    handle_voice classify (some (tc, some b)) username transcribed now =
      { deleted := true, replies := [Reply.AlreadyBlocked b], write := none
        classifierCalled := false, transcriberCalled := false } := by
  constructor <;> simp [handle_text, handle_voice, read_row, hfut]

/-- Witness for C1 at the concrete blocked record (3, blocked until 10) at
time 5. -/
theorem blocked_user_rejected_without_inference_witness :
    handle_text (fun _ => true) (some (3, some 10)) "u" "t" 5 =
      { deleted := true, replies := [Reply.AlreadyBlocked 10], write := none
        classifierCalled := false, transcriberCalled := false } ∧
    handle_voice (fun _ => true) (some (3, some 10)) "u" "v" 5 =
      { deleted := true, replies := [Reply.AlreadyBlocked 10], write := none
        classifierCalled := false, transcriberCalled := false } :=
  blocked_user_rejected_without_inference (fun _ => true) 3 10 "u" "t" "v" 5
    (by decide)

/-- C7: a record whose `blocked_until` is exactly `now` or in the past is
treated as clean: the still-blocked test (strict `now < blocked_until`) is
false, both handlers fall through to the classification path, and the text
handler reaches the classifier (the voice handler does as soon as the
transcription is non-empty). -/
theorem expired_block_treated_as_clean
    (classify : String → Bool) (tc b : Int) (username text transcribed : String)
    (now : Int) (hpast : b ≤ now) :
    still_blocked (some b) now = false ∧
    handle_text classify (some (tc, some b)) username text now =
      handle_text_classify classify tc (some b) username text now ∧
    (handle_text classify (some (tc, some b)) username text now).classifierCalled
      = true ∧
    handle_voice classify (some (tc, some b)) username transcribed now =
      handle_voice_transcribed classify tc (some b) username transcribed now ∧
    (transcribed ≠ "" →
      (handle_voice classify (some (tc, some b)) username transcribed
        now).classifierCalled = true) := by
  have hsb : still_blocked (some b) now = false := by
    simp [still_blocked]; omega
  have ht := handle_text_eq_classify classify (some (tc, some b)) username text
    now (by simpa [read_row] using hsb)
  have hv := handle_voice_eq_transcribed classify (some (tc, some b)) username
    transcribed now (by simpa [read_row] using hsb)
  simp only [read_row] at ht hv
  refine ⟨hsb, ht, ?_, hv, ?_⟩
  · rw [ht]; exact handle_text_classify_calls_classifier _ _ _ _ _ _
  · intro htr
    rw [hv]
    exact handle_voice_transcribed_calls_classifier _ _ _ _ _ _ htr

/-- Witness for C7 at the concrete record (3, blocked until 5) at time 5
(the boundary case blocked_until = now). -/
theorem expired_block_treated_as_clean_witness :
    still_blocked (some 5) 5 = false ∧
    handle_text (fun _ => true) (some (3, some 5)) "u" "t" 5 =
      handle_text_classify (fun _ => true) 3 (some 5) "u" "t" 5 ∧
    (handle_text (fun _ => true) (some (3, some 5)) "u" "t" 5).classifierCalled
      = true ∧
    handle_voice (fun _ => true) (some (3, some 5)) "u" "v" 5 =
      handle_voice_transcribed (fun _ => true) 3 (some 5) "u" "v" 5 ∧
    ("v" ≠ "" →
      (handle_voice (fun _ => true) (some (3, some 5)) "u" "v"
        5).classifierCalled = true) :=
  expired_block_treated_as_clean (fun _ => true) 3 5 "u" "t" "v" 5 (by decide)

/-- C9: the decision logic is a deterministic pure function of the record,
the clock and the verdict inputs: two runs of either handler on equal inputs
produce equal results. -/
theorem decision_deterministic
    (c₁ c₂ : String → Bool) (r₁ r₂ : Row) (u₁ u₂ t₁ t₂ : String) (n₁ n₂ : Int)
    (hc : c₁ = c₂) (hr : r₁ = r₂) (hu : u₁ = u₂) (ht : t₁ = t₂) (hn : n₁ = n₂) :
    handle_text c₁ r₁ u₁ t₁ n₁ = handle_text c₂ r₂ u₂ t₂ n₂ ∧
    handle_voice c₁ r₁ u₁ t₁ n₁ = handle_voice c₂ r₂ u₂ t₂ n₂ := by
  subst hc hr hu ht hn
  exact ⟨rfl, rfl⟩

/-- Witness for C9 at a concrete pair of identical runs. -/
theorem decision_deterministic_witness :
    handle_text (fun _ => true) (some (7, none)) "u" "hi" 0 =
      handle_text (fun _ => true) (some (7, none)) "u" "hi" 0 ∧
    handle_voice (fun _ => true) (some (7, none)) "u" "hi" 0 =
      handle_voice (fun _ => true) (some (7, none)) "u" "hi" 0 :=
  decision_deterministic (fun _ => true) (fun _ => true) (some (7, none))
    (some (7, none)) "u" "u" "hi" "hi" 0 0 rfl rfl rfl rfl rfl

/-- C2 counterexample: a toxic verdict that takes the count to exactly 9
(read count 8) does not set `blocked_until` and sends no `Blocked` reply —
the block fires only at `new_count >= 10` (lines 159, 216), not at 9. -/
theorem block_at_nine_counterexample :
    (handle_text (fun _ => true) (some (8, none)) "u" "hi" 0).write =
      some { toxic_count := 9, blocked_until := none } ∧
    Reply.Blocked (0 + twoDays) ∉
      (handle_text (fun _ => true) (some (8, none)) "u" "hi" 0).replies ∧
    (handle_voice (fun _ => true) (some (8, none)) "u" "hi" 0).write =
      some { toxic_count := 9, blocked_until := none } := by
  decide

/-- C2 amended: whenever a toxic verdict makes the count transition to 10 or
above, both handlers set `blocked_until = now + 2 days`, send the `Blocked`
reply (after `ToxicRemoved`), and delete the message. -/
theorem block_at_ten
    (classify : String → Bool) (record : Row)
    (username text transcribed : String) (now : Int)
    (hnb : still_blocked (read_row record).2 now = false)
    (h10 : 10 ≤ (read_row record).1 + 1)
    (hct : classify text = true) (hcv : classify transcribed = true)
    (htr : transcribed ≠ "") :
    handle_text classify record username text now =
      { deleted := true
        replies := [Reply.ToxicRemoved (explain_toxicity text),
          Reply.Blocked (now + twoDays)]
        write := some { toxic_count := (read_row record).1 + 1,
                        blocked_until := some (now + twoDays) }
        classifierCalled := true
        transcriberCalled := false } ∧
    handle_voice classify record username transcribed now =
      { deleted := true
        replies := [Reply.ToxicRemovedVoice (explain_toxicity transcribed),
          Reply.Blocked (now + twoDays)]
        write := some { toxic_count := (read_row record).1 + 1,
                        blocked_until := some (now + twoDays) }
        classifierCalled := true
        transcriberCalled := true } := by
  have h8 : ¬((read_row record).1 + 1 = 8) := by omega
  rw [handle_text_eq_classify classify record username text now hnb,
      handle_voice_eq_transcribed classify record username transcribed now hnb]
  constructor
  · simp [handle_text_classify, detect_toxicity, hct, h8, h10]
  · simp [handle_voice_transcribed, detect_toxicity, hcv, htr, h8, h10]

/-- Witness for the amended C2 at the concrete record (9, not blocked). -/
theorem block_at_ten_witness :
    handle_text (fun _ => true) (some (9, none)) "u" "hi" 0 =
      { deleted := true
        replies := [Reply.ToxicRemoved (explain_toxicity "hi"),
          Reply.Blocked (0 + twoDays)]
        write := some { toxic_count := (9 : Int) + 1,
                        blocked_until := some (0 + twoDays) }
        classifierCalled := true
        transcriberCalled := false } ∧
    handle_voice (fun _ => true) (some (9, none)) "u" "yo" 0 =
      { deleted := true
        replies := [Reply.ToxicRemovedVoice (explain_toxicity "yo"),
          Reply.Blocked (0 + twoDays)]
        write := some { toxic_count := (9 : Int) + 1,
                        blocked_until := some (0 + twoDays) }
        classifierCalled := true
        transcriberCalled := true } :=
  block_at_ten (fun _ => true) (some (9, none)) "u" "hi" "yo" 0 (by decide)
    (by decide) rfl rfl (by decide)

/-- C3: with a clean (None) block timestamp and a toxic verdict, when the
incremented count is exactly 8 both handlers send `ToxicRemoved` followed by
`Warning` and keep `blocked_until = None`; and the `Warning` reply is sent
precisely when the incremented count is 8 (in particular never at 9). -/
theorem warning_exactly_at_eight
    (classify : String → Bool) (record : Row)
    (username text transcribed : String) (now : Int)
    (hbu : (read_row record).2 = none)
    (hct : classify text = true) (hcv : classify transcribed = true)
    (htr : transcribed ≠ "") :
    ((read_row record).1 + 1 = 8 →
      handle_text classify record username text now =
        { deleted := true
          replies := [Reply.ToxicRemoved (explain_toxicity text),
            Reply.Warning username]
          write := some { toxic_count := 8, blocked_until := none }
          classifierCalled := true
          transcriberCalled := false } ∧
      handle_voice classify record username transcribed now =
        { deleted := true
          replies := [Reply.ToxicRemovedVoice (explain_toxicity transcribed),
            Reply.Warning username]
          write := some { toxic_count := 8, blocked_until := none }
          classifierCalled := true
          transcriberCalled := true }) ∧
    (Reply.Warning username ∈
        (handle_text classify record username text now).replies ↔
      (read_row record).1 + 1 = 8) ∧
    (Reply.Warning username ∈
        (handle_voice classify record username transcribed now).replies ↔
      (read_row record).1 + 1 = 8) := by
  have hnb : still_blocked (read_row record).2 now = false := by rw [hbu]; rfl
  rw [handle_text_eq_classify classify record username text now hnb,
      handle_voice_eq_transcribed classify record username transcribed now hnb,
      hbu]
  refine ⟨?_, warning_mem_text_classify classify _ none username text now hct,
    warning_mem_voice_transcribed classify _ none username transcribed now
      hcv htr⟩
  intro h8
  constructor
  · simp [handle_text_classify, detect_toxicity, hct, h8]
  · simp [handle_voice_transcribed, detect_toxicity, hcv, htr, h8]

/-- Witness for C3 at the concrete record (7, not blocked): the 7-to-8
transition sends the warning. -/
theorem warning_exactly_at_eight_witness :
    handle_text (fun _ => true) (some (7, none)) "u" "hi" 0 =
      { deleted := true
        replies := [Reply.ToxicRemoved (explain_toxicity "hi"),
          Reply.Warning "u"]
        write := some { toxic_count := 8, blocked_until := none }
        classifierCalled := true
        transcriberCalled := false } ∧
    handle_voice (fun _ => true) (some (7, none)) "u" "yo" 0 =
      { deleted := true
        replies := [Reply.ToxicRemovedVoice (explain_toxicity "yo"),
          Reply.Warning "u"]
        write := some { toxic_count := 8, blocked_until := none }
        classifierCalled := true
        transcriberCalled := true } :=
  (warning_exactly_at_eight (fun _ => true) (some (7, none)) "u" "hi" "yo" 0
    rfl rfl rfl (by decide)).1 (by decide)

/-- C6: for a record with count below 7 and no block timestamp (including the
fresh user with no row), a toxic text message is deleted, answered with only
`ToxicRemoved`, and the written record has the count incremented by exactly 1
with `blocked_until` still None. -/
theorem toxic_below_seven_increments
    (classify : String → Bool) (record : Row) (username text : String)
    (now : Int) (hc7 : (read_row record).1 < 7)
    (hbu : (read_row record).2 = none) (hct : classify text = true) :
    handle_text classify record username text now =
      { deleted := true
        replies := [Reply.ToxicRemoved (explain_toxicity text)]
        write := some { toxic_count := (read_row record).1 + 1,
                        blocked_until := none }
        classifierCalled := true
        transcriberCalled := false } := by
  have hnb : still_blocked (read_row record).2 now = false := by rw [hbu]; rfl
  rw [handle_text_eq_classify classify record username text now hnb, hbu]
  have h8 : ¬((read_row record).1 + 1 = 8) := by omega
  have h10 : ¬(10 ≤ (read_row record).1 + 1) := by omega
  simp [handle_text_classify, detect_toxicity, hct, h8, h10]

/-- Witness for C6: a fresh user (no row) sends toxic text and ends at
count 1, unblocked, with the keyword-highlighted explanation. -/
theorem toxic_below_seven_increments_witness :
    handle_text (fun _ => true) none "u" "I hate you" 0 =
      { deleted := true
        replies := [Reply.ToxicRemoved "I **hate** you"]
        write := some { toxic_count := 1, blocked_until := none }
        classifierCalled := true
        transcriberCalled := false } :=
  toxic_below_seven_increments (fun _ => true) none "u" "I hate you" 0
    (by decide) rfl rfl

/-- C4 counterexample: a non-blocked user's voice message with a non-toxic
verdict is nevertheless deleted (the voice handler deletes every message
unconditionally at lines 194-197), so the claim's "does not delete it" fails
on the voice path. -/
theorem clean_voice_deleted_counterexample :
    (handle_voice (fun _ => false) (some (0, none)) "u" "hello" 0).deleted
      = true ∧
    (handle_voice (fun _ => false) (some (0, none)) "u" "hello" 0).replies =
      [Reply.CleanVoice "hello"] := by
  decide

/-- C4 amended: for a non-blocked user and a non-toxic verdict, a text
message is admitted (not deleted) with the `Clean` reply and unchanged record
values, while a voice message keeps the unchanged record values and the clean
reply (with its transcription) but is deleted anyway. -/
theorem clean_verdict_text_admitted_voice_deleted
    (classify : String → Bool) (record : Row)
    (username text transcribed : String) (now : Int)
    (hnb : still_blocked (read_row record).2 now = false)
    (hct : classify text = false) (hcv : classify transcribed = false)
    (htr : transcribed ≠ "") :
    handle_text classify record username text now =
      { deleted := false
        replies := [Reply.Clean]
        write := some { toxic_count := (read_row record).1,
                        blocked_until := (read_row record).2 }
        classifierCalled := true
        transcriberCalled := false } ∧
    handle_voice classify record username transcribed now =
      { deleted := true
        replies := [Reply.CleanVoice transcribed]
        write := some { toxic_count := (read_row record).1,
                        blocked_until := (read_row record).2 }
        classifierCalled := true
        transcriberCalled := true } := by
  rw [handle_text_eq_classify classify record username text now hnb,
      handle_voice_eq_transcribed classify record username transcribed now hnb]
  constructor
  · simp [handle_text_classify, detect_toxicity, hct]
  · simp [handle_voice_transcribed, detect_toxicity, hcv, htr]

/-- Witness for the amended C4 at the concrete record (2, not blocked). -/
theorem clean_verdict_text_admitted_voice_deleted_witness :
    handle_text (fun _ => false) (some (2, none)) "u" "hi" 0 =
      { deleted := false
        replies := [Reply.Clean]
        write := some { toxic_count := 2, blocked_until := none }
        classifierCalled := true
        transcriberCalled := false } ∧
    handle_voice (fun _ => false) (some (2, none)) "u" "hello" 0 =
      { deleted := true
        replies := [Reply.CleanVoice "hello"]
        write := some { toxic_count := 2, blocked_until := none }
        classifierCalled := true
        transcriberCalled := true } :=
  clean_verdict_text_admitted_voice_deleted (fun _ => false) (some (2, none))
    "u" "hi" "hello" 0 (by decide) rfl rfl (by decide)

/-- C5 counterexample: an existing non-blocked user with a non-toxic verdict
leaves the record values unchanged, yet the handler still upserts (line 165
runs unconditionally after classification) — the write is not skipped. -/
theorem upsert_on_unchanged_record_counterexample :
    (handle_text (fun _ => false) (some (3, none)) "u" "hi" 0).write =
      some { toxic_count := 3, blocked_until := none } ∧
    (handle_text (fun _ => false) (some (3, none)) "u" "hi" 0).write
      ≠ none := by
  decide

/-- C5 amended: a handler run performs the store upsert exactly when it
reaches the classification code — for text, whenever the user is not
still blocked; for voice, whenever additionally the transcription is
non-empty — regardless of whether the record changed. -/
theorem upsert_exactly_after_classification
    (classify : String → Bool) (record : Row)
    (username text transcribed : String) (now : Int) :
    ((handle_text classify record username text now).write.isSome = true ↔
      still_blocked (read_row record).2 now = false) ∧
    ((handle_voice classify record username transcribed now).write.isSome
        = true ↔
      (still_blocked (read_row record).2 now = false ∧ transcribed ≠ "")) := by
  cases hsb : still_blocked (read_row record).2 now
  · rw [handle_text_eq_classify classify record username text now hsb,
        handle_voice_eq_transcribed classify record username transcribed now
          hsb]
    by_cases htr : transcribed = ""
    · subst htr
      simp [handle_text_classify_write_isSome, handle_voice_transcribed]
    · simp [handle_text_classify_write_isSome,
        handle_voice_transcribed_write_isSome classify _ _ username transcribed
          now htr, htr]
  · simp [handle_text_blocked_write_none classify record username text now hsb,
      handle_voice_blocked_write_none classify record username transcribed now
        hsb, hsb]

/-- C8: for any input row and any verdict outcome (toxic, clean, blocked or
unintelligible), whatever record a handler writes back has a count at least
the count it read, and, when the read count is non-negative, non-negative:
the counter is never decremented by a decision. -/
theorem toxic_count_monotone
    (classify : String → Bool) (record : Row)
    (username text transcribed : String) (now : Int)
    (h0 : 0 ≤ (read_row record).1) :
    (∀ r : UserRecord,
      (handle_text classify record username text now).write = some r →
        (read_row record).1 ≤ r.toxic_count ∧ 0 ≤ r.toxic_count) ∧
    (∀ r : UserRecord,
      (handle_voice classify record username transcribed now).write = some r →
        (read_row record).1 ≤ r.toxic_count ∧ 0 ≤ r.toxic_count) := by
  cases hsb : still_blocked (read_row record).2 now
  · rw [handle_text_eq_classify classify record username text now hsb,
        handle_voice_eq_transcribed classify record username transcribed now
          hsb]
    refine ⟨fun r h => ?_, fun r h => ?_⟩
    · rcases handle_text_classify_count_step classify _ _ username text now r h
        with h1 | h1 <;> omega
    · rcases handle_voice_transcribed_count_step classify _ _ username
        transcribed now r h with h1 | h1 <;> omega
  · refine ⟨fun r h => ?_, fun r h => ?_⟩
    · rw [handle_text_blocked_write_none classify record username text now
        hsb] at h
      exact Option.noConfusion h
    · rw [handle_voice_blocked_write_none classify record username transcribed
        now hsb] at h
      exact Option.noConfusion h

/-- Witness for C8: the record read at count 5 is written back at count 6 on
a toxic text verdict. -/
theorem toxic_count_monotone_witness :
    (5 : Int) ≤ 6 ∧ (0 : Int) ≤ 6 :=
  (toxic_count_monotone (fun _ => true) (some (5, none)) "u" "hi" "hi" 0
    (by decide)).1 { toxic_count := 6, blocked_until := none } (by decide)

/-- C10 (implicit): `get_user_record` returns None both on a failed read and
on a missing row; the handlers treat None exactly as the zero record
(count 0, no block); consequently, after a transient read failure for a user
whose stored count is c > 1, a toxic message makes the pipeline upsert
count 1, strictly below the previously stored value. -/
theorem read_failure_resets_count
    (store : Store) (classify : String → Bool)
    (user_id username text : String) (now : Int) (c : Int)
    (hrow : store user_id = some (c, none)) (hc : 1 < c)
    (hct : classify text = true) :
    get_user_record store false user_id = none ∧
    (∀ s : Store, ∀ uid : String, s uid = none →
      get_user_record s true uid = none) ∧
    handle_text classify (get_user_record store false user_id) username text
        now =
      handle_text classify (some (0, none)) username text now ∧
    store user_id = some (c, none) ∧
    (handle_text_full classify store false user_id username text now).2
        user_id = some (1, none) ∧
    (1 : Int) < c := by
  refine ⟨rfl, fun s uid h => by simp [get_user_record, h], ?_, hrow, ?_, hc⟩
  · simp [get_user_record, handle_text, read_row]
  · simp [handle_text_full, get_user_record, handle_text, read_row,
      handle_text_classify, detect_toxicity, hct, update_user_record]

/-- Witness for C10: stored count 5, failed read, toxic message — the store
ends at count 1 for that user. -/
theorem read_failure_resets_count_witness :
    get_user_record (fun _ => some ((5 : Int), (none : Option Int))) false "id"
      = none ∧
    (fun _ => some ((5 : Int), (none : Option Int)) : Store) "id"
      = some (5, none) ∧
    (handle_text_full (fun _ => true) (fun _ => some (5, none)) false "id" "u"
      "hi" 0).2 "id" = some (1, none) ∧
    (1 : Int) < 5 :=
  ⟨(read_failure_resets_count (fun _ => some (5, none)) (fun _ => true) "id"
      "u" "hi" 0 5 rfl (by decide) rfl).1,
   (read_failure_resets_count (fun _ => some (5, none)) (fun _ => true) "id"
      "u" "hi" 0 5 rfl (by decide) rfl).2.2.2.1,
   (read_failure_resets_count (fun _ => some (5, none)) (fun _ => true) "id"
      "u" "hi" 0 5 rfl (by decide) rfl).2.2.2.2.1,
   (read_failure_resets_count (fun _ => some (5, none)) (fun _ => true) "id"
      "u" "hi" 0 5 rfl (by decide) rfl).2.2.2.2.2⟩

end ToxicScan
